import Mathlib

/-!
Verification of the range-reduction and telemetry core of
`scripts/d4xx_to_mavlink.py`.

The Python module's numeric work is done in IEEE float64; here it is
modelled over the exact rationals `ℚ`.  All quantities the claims touch
are either exactly representable or decided far from any rounding
boundary, so the rational model and the float computation agree on every
statement below.  Python's `int(...)` cast on a float truncates toward
zero; `pyInt` models it on `ℚ`.
-/

/-- Model of Python `int(q)`: truncation toward zero. -/
def pyInt (q : ℚ) : ℤ := if q < 0 then ⌈q⌉ else ⌊q⌋

/-- `WIDTH = 640` (line 41). -/
def WIDTH : ℕ := 640

/-- `HEIGHT = 480` (line 42). -/
def HEIGHT : ℕ := 480

/-- `HFOV = 87` (line 51). -/
def HFOV : ℚ := 87

/-- `DEPTH_RANGE[0] = 0.1` (line 52). -/
def DEPTH_RANGE_MIN : ℚ := 1/10

/-- `DEPTH_RANGE[1] = 8.0` (line 52). -/
def DEPTH_RANGE_MAX : ℚ := 8

/-- `MIN_DEPTH_CM = int(DEPTH_RANGE[0] * 100)` (line 53). -/
def MIN_DEPTH_CM : ℕ := (pyInt (DEPTH_RANGE_MIN * 100)).toNat

/-- `MAX_DEPTH_CM = int(DEPTH_RANGE[1] * 100)` (line 54). -/
def MAX_DEPTH_CM : ℕ := (pyInt (DEPTH_RANGE_MAX * 100)).toNat

/-- `DISTANCES_ARRAY_LEN = 72` (line 58). -/
def DISTANCES_ARRAY_LEN : ℕ := 72

/-- `angle_offset = -(HFOV / 2)` (line 59). -/
def angle_offset : ℚ := -(HFOV / 2)

/-- `increment_f = HFOV / DISTANCES_ARRAY_LEN` (line 60). -/
def increment_f : ℚ := HFOV / (DISTANCES_ARRAY_LEN : ℚ)

/-- `distances = np.ones((72,), dtype=np.uint16) * (MAX_DEPTH_CM + 1)`
(line 61): the initial shared distance array. -/
def initial_distances : List ℕ := List.replicate DISTANCES_ARRAY_LEN (MAX_DEPTH_CM + 1)

/-- Lines 366-368 of `calculate_distances_from_depth`:
`x_pixel_range_lower_bound = i * step - step / 2`, clamped below at `0`.
`width` stands for the module global `WIDTH` so that the span geometry can
be stated for arbitrary image widths. -/
def x_pixel_range_lower_bound (width i : ℕ) : ℚ :=
  let step : ℚ := (width : ℚ) / (DISTANCES_ARRAY_LEN : ℚ)
  let b : ℚ := (i : ℚ) * step - step / 2
  if b < 0 then 0 else b

/-- Lines 370-372: `x_pixel_range_upper_bound = i * step + step / 2`,
clamped above at `WIDTH - 1`. -/
def x_pixel_range_upper_bound (width i : ℕ) : ℚ :=
  let step : ℚ := (width : ℚ) / (DISTANCES_ARRAY_LEN : ℚ)
  let b : ℚ := (i : ℚ) * step + step / 2
  if b > (width : ℚ) - 1 then (width : ℚ) - 1 else b

/-- First pixel column of sector `i`: `int(x_pixel_range_lower_bound)`. -/
def sliceLo (width i : ℕ) : ℕ := (pyInt (x_pixel_range_lower_bound width i)).toNat

/-- One past the last pixel column of sector `i`:
`int(x_pixel_range_upper_bound)` (a Python slice `a:b` is `[a, b)`). -/
def sliceHi (width i : ℕ) : ℕ := (pyInt (x_pixel_range_upper_bound width i)).toNat

/-- Line 378:
`dist_m = np.mean(depth_mat[int(HEIGHT/2), int(lo):int(hi)]) * depth_scale`.
The mean divides the slice sum by the slice length `hi - lo`.
A depth image is modelled as a function from (row, column) to the raw
unsigned sample. -/
def dist_m (depth_mat : ℕ → ℕ → ℕ) (depth_scale : ℚ) (i : ℕ) : ℚ :=
  (∑ x in Finset.Ico (sliceLo WIDTH i) (sliceHi WIDTH i),
      ((depth_mat (HEIGHT / 2) x : ℚ))) /
    ((sliceHi WIDTH i - sliceLo WIDTH i : ℕ) : ℚ) * depth_scale

/-- Lines 381-384: the value stored into `distances[i]` — the sentinel
`max_depth_m * 100 + 1` when `dist_m < min_depth_m or dist_m > max_depth_m`,
otherwise `dist_m * 100` truncated by the `uint16` store. -/
def sectorValue (depth_mat : ℕ → ℕ → ℕ) (depth_scale min_depth_m max_depth_m : ℚ)
    (i : ℕ) : ℕ :=
  let d := dist_m depth_mat depth_scale i
  if d < min_depth_m ∨ max_depth_m < d then (pyInt (max_depth_m * 100 + 1)).toNat
  else (pyInt (d * 100)).toNat

/-- Lines 361-384, `calculate_distances_from_depth(depth_mat, distances,
min_depth_m, max_depth_m)`: the loop `for i in range(72)` storing
`sectorValue` into `distances[i]`.  The module global `depth_scale` is
passed explicitly. -/
def calculate_distances_from_depth (depth_mat : ℕ → ℕ → ℕ) (distances : List ℕ)
    (min_depth_m max_depth_m depth_scale : ℚ) : List ℕ :=
  (List.range DISTANCES_ARRAY_LEN).foldl
    (fun ds i => ds.set i (sectorValue depth_mat depth_scale min_depth_m max_depth_m i))
    distances

/-- Payload of `obstacle_distance_encode` (lines 164-174). -/
structure ObstacleDistanceMsg where
  time_usec : ℕ
  sensor_type : ℕ
  distances : List ℕ
  increment : ℕ
  min_distance : ℕ
  max_distance : ℕ
  increment_f : ℚ
  angle_offset : ℚ
  frame : ℕ
deriving DecidableEq

/-- Payload of `distance_sensor_encode` (lines 187-196). -/
structure DistanceSensorMsg where
  time_boot_ms : ℕ
  min_distance : ℕ
  max_distance : ℕ
  current_distance : ℕ
  sensor_type : ℕ
  sensor_id : ℕ
  orientation : ℕ
  covariance : ℕ
deriving DecidableEq

/-- A MAVLink message sent through `vehicle.send_mavlink`. -/
inductive MavlinkMsg where
  | obstacleDistance (msg : ObstacleDistanceMsg)
  | distanceSensor (msg : DistanceSensorMsg)
deriving DecidableEq

/-- Recognizer for single-point (DISTANCE_SENSOR) messages. -/
def isDistanceSensorMsg : MavlinkMsg → Bool
  | MavlinkMsg.distanceSensor _ => true
  | _ => false

/-- The module state the telemetry functions read: the globals
`current_time_us` (line 110) and `distances` (line 61). -/
structure ScriptState where
  current_time_us : ℕ
  distances : List ℕ
deriving DecidableEq

/-- The state before any camera frame has been processed:
`current_time_us = 0`, `distances` as initialized at line 61. -/
def initialState : ScriptState := ⟨0, initial_distances⟩

/-- Lines 162-177, `send_obstacle_distance_message`: builds the
OBSTACLE_DISTANCE payload from the globals, unconditionally. -/
def send_obstacle_distance_message (st : ScriptState) : ObstacleDistanceMsg :=
  { time_usec := st.current_time_us
    sensor_type := 0
    distances := st.distances
    increment := 0
    min_distance := MIN_DEPTH_CM
    max_distance := MAX_DEPTH_CM
    increment_f := increment_f
    angle_offset := angle_offset
    frame := 12 }

/-- `distances[33:38]`: the five centermost sectors used at line 185. -/
def window33 (ds : List ℕ) : List ℕ := (ds.drop 33).take 5

/-- Line 185: `curr_dist = int(np.mean(distances[33:38]))`. -/
def curr_dist (ds : List ℕ) : ℕ :=
  (pyInt (((window33 ds).sum : ℚ) / ((window33 ds).length : ℚ))).toNat

/-- Lines 181-199, `send_distance_sensor_message`: builds the
DISTANCE_SENSOR payload. -/
def send_distance_sensor_message (st : ScriptState) : DistanceSensorMsg :=
  { time_boot_ms := 0
    min_distance := 10
    max_distance := 65
    current_distance := curr_dist st.distances
    sensor_type := 0
    sensor_id := 0
    orientation := 0
    covariance := 0 }

/-- `enable_msg_obstacle_distance = True` (line 75). -/
def enable_msg_obstacle_distance : Bool := true

/-- Lines 400-403: the only job registered with the background scheduler is
`send_obstacle_distance_message`; one tick therefore performs exactly the
sends of that one function.  The result is the list of messages the tick
hands to `vehicle.send_mavlink`. -/
def schedulerTick (st : ScriptState) : List MavlinkMsg :=
  if enable_msg_obstacle_distance then
    [MavlinkMsg.obstacleDistance (send_obstacle_distance_message st)]
  else []

/-- A concrete 72-entry distance array whose central window is
`[200, 200, 201, 201, 201]` (mean `200.6`). -/
def exDistances : List ℕ :=
  List.replicate 35 200 ++ (201 :: 201 :: 201 :: List.replicate 34 200)

/-! ### Helper lemmas -/

theorem pyInt_of_nonneg {q : ℚ} (h : 0 ≤ q) : pyInt q = ⌊q⌋ := by
  unfold pyInt
  rw [if_neg (not_lt.mpr h)]

theorem MIN_DEPTH_CM_eq : MIN_DEPTH_CM = 10 := by
  norm_num [MIN_DEPTH_CM, pyInt, DEPTH_RANGE_MIN]
  rfl

theorem MAX_DEPTH_CM_eq : MAX_DEPTH_CM = 800 := by
  norm_num [MAX_DEPTH_CM, pyInt, DEPTH_RANGE_MAX]
  rfl

theorem set_append_len (A t : List ℕ) (v : ℕ) :
    (A ++ t).set A.length v = A ++ t.set 0 v := by
  induction A with
  | nil => simp
  | cons a A ih => simp [List.set, ih]

theorem foldl_set_range (f : ℕ → ℕ) :
    ∀ (n : ℕ) (ds : List ℕ), n ≤ ds.length →
      (List.range n).foldl (fun a i => a.set i (f i)) ds =
        (List.range n).map f ++ ds.drop n := by
  intro n
  induction n with
  | zero => simp
  | succ n ih =>
    intro ds h
    rw [List.range_succ, List.foldl_append, ih ds (by omega)]
    have hset := set_append_len ((List.range n).map f) (ds.drop n) (f n)
    have hlen : ((List.range n).map f).length = n := by simp
    rw [hlen] at hset
    simp only [List.foldl_cons, List.foldl_nil]
    rw [hset]
    cases hdrop : ds.drop n with
    | nil =>
      exfalso
      have : ds.length ≤ n := by
        have := congrArg List.length hdrop
        simp [List.length_drop] at this
        omega
      omega
    | cons a t =>
      have ht : t = ds.drop (n + 1) := by
        have htail := List.tail_drop ds n
        rw [hdrop] at htail
        simpa using htail
      simp [List.set, ht, List.range_succ]

theorem foldl_set_length (f : ℕ → ℕ) (l : List ℕ) :
    ∀ ds : List ℕ, (l.foldl (fun a i => a.set i (f i)) ds).length = ds.length := by
  induction l with
  | nil => intro ds; rfl
  | cons a l ih => intro ds; rw [List.foldl_cons, ih, List.length_set]

theorem calc_length (depth_mat : ℕ → ℕ → ℕ) (ds : List ℕ) (mn mx sc : ℚ) :
    (calculate_distances_from_depth depth_mat ds mn mx sc).length = ds.length :=
  foldl_set_length _ _ ds

theorem calc_eq_map (depth_mat : ℕ → ℕ → ℕ) (ds : List ℕ) (mn mx sc : ℚ)
    (h : ds.length = 72) :
    calculate_distances_from_depth depth_mat ds mn mx sc =
      (List.range 72).map (sectorValue depth_mat sc mn mx) := by
  unfold calculate_distances_from_depth
  have h72 : DISTANCES_ARRAY_LEN = 72 := rfl
  rw [h72, foldl_set_range _ 72 ds (by omega)]
  simp [List.drop_eq_nil_of_le, h]

theorem span_ok (w : ℕ) (hw : 144 ≤ w) (i : ℕ) (hi : i < 72) :
    sliceLo w i < sliceHi w i ∧ sliceHi w i ≤ w - 1 := by
  have hwQ : (144 : ℚ) ≤ (w : ℚ) := by exact_mod_cast hw
  have hi71 : (i : ℚ) ≤ 71 := by exact_mod_cast Nat.lt_succ_iff.mp hi
  have hi0 : (0 : ℚ) ≤ (i : ℚ) := Nat.cast_nonneg i
  have hcast : ((DISTANCES_ARRAY_LEN : ℕ) : ℚ) = 72 := by norm_num [DISTANCES_ARRAY_LEN]
  have hs2 : (2 : ℚ) ≤ (w : ℚ) / 72 := by
    rw [le_div_iff₀ (by norm_num : (0 : ℚ) < 72)]
    linarith
  have hA0 : (0 : ℚ) ≤ (i : ℚ) * ((w : ℚ) / 72) := by
    apply mul_nonneg hi0
    linarith
  have hA71 : (i : ℚ) * ((w : ℚ) / 72) ≤ 71 * ((w : ℚ) / 72) := by
    apply mul_le_mul_of_nonneg_right hi71
    linarith
  have hL : x_pixel_range_lower_bound w i =
      if (i : ℚ) * ((w : ℚ) / 72) - (w : ℚ) / 72 / 2 < 0 then 0
      else (i : ℚ) * ((w : ℚ) / 72) - (w : ℚ) / 72 / 2 := by
    simp only [x_pixel_range_lower_bound, hcast]
  have hU : x_pixel_range_upper_bound w i =
      if (i : ℚ) * ((w : ℚ) / 72) + (w : ℚ) / 72 / 2 > (w : ℚ) - 1 then (w : ℚ) - 1
      else (i : ℚ) * ((w : ℚ) / 72) + (w : ℚ) / 72 / 2 := by
    simp only [x_pixel_range_upper_bound, hcast]
  have hL0 : 0 ≤ x_pixel_range_lower_bound w i := by
    rw [hL]
    split_ifs with h
    · norm_num
    · exact not_lt.mp h
  have hU0 : 0 ≤ x_pixel_range_upper_bound w i := by
    rw [hU]
    split_ifs with h
    · linarith
    · linarith
  have hUle : x_pixel_range_upper_bound w i ≤ (w : ℚ) - 1 := by
    rw [hU]
    split_ifs with h
    · exact le_refl _
    · exact not_lt.mp h
  have hUfloor_le : ⌊x_pixel_range_upper_bound w i⌋ ≤ (w : ℤ) - 1 := by
    have hcastw : (((w : ℤ) - 1 : ℤ) : ℚ) = (w : ℚ) - 1 := by push_cast; ring
    have h1 : x_pixel_range_upper_bound w i ≤ (((w : ℤ) - 1 : ℤ) : ℚ) := by
      rw [hcastw]; exact hUle
    have h2 := Int.floor_mono h1
    rwa [Int.floor_intCast] at h2
  have hmain : ⌊x_pixel_range_lower_bound w i⌋ < ⌊x_pixel_range_upper_bound w i⌋ := by
    by_cases hclamp : (i : ℚ) * ((w : ℚ) / 72) + (w : ℚ) / 72 / 2 > (w : ℚ) - 1
    · have hUeq : x_pixel_range_upper_bound w i = (w : ℚ) - 1 := by rw [hU, if_pos hclamp]
      have hfU : ⌊x_pixel_range_upper_bound w i⌋ = (w : ℤ) - 1 := by
        rw [hUeq]
        have hcastw : ((w : ℚ) - 1) = (((w : ℤ) - 1 : ℤ) : ℚ) := by push_cast; ring
        rw [hcastw, Int.floor_intCast]
      have hLlt : x_pixel_range_lower_bound w i < (w : ℚ) - 1 := by
        rw [hL]
        split_ifs with h
        · linarith
        · linarith
      have : ⌊x_pixel_range_lower_bound w i⌋ < (w : ℤ) - 1 := by
        apply Int.floor_lt.mpr
        push_cast
        linarith
      omega
    · have hUeq : x_pixel_range_upper_bound w i =
          (i : ℚ) * ((w : ℚ) / 72) + (w : ℚ) / 72 / 2 := by rw [hU, if_neg hclamp]
      by_cases hneg : (i : ℚ) * ((w : ℚ) / 72) - (w : ℚ) / 72 / 2 < 0
      · have hLeq : x_pixel_range_lower_bound w i = 0 := by rw [hL, if_pos hneg]
        have h1 : (1 : ℚ) ≤ x_pixel_range_upper_bound w i := by
          rw [hUeq]
          linarith
        have h2 : (1 : ℤ) ≤ ⌊x_pixel_range_upper_bound w i⌋ := by
          apply Int.le_floor.mpr
          exact_mod_cast h1
        rw [hLeq]
        simp only [Int.floor_zero]
        omega
      · have hLeq : x_pixel_range_lower_bound w i =
            (i : ℚ) * ((w : ℚ) / 72) - (w : ℚ) / 72 / 2 := by rw [hL, if_neg hneg]
        have hfl : (⌊x_pixel_range_lower_bound w i⌋ : ℚ) ≤ x_pixel_range_lower_bound w i :=
          Int.floor_le _
        have h1 : (⌊x_pixel_range_lower_bound w i⌋ : ℚ) + 2 ≤ x_pixel_range_upper_bound w i := by
          rw [hUeq]
          nth_rewrite 2 [hLeq] at hfl
          linarith
      -- conclude via Int.le_floor
        have h2 : ⌊x_pixel_range_lower_bound w i⌋ + 2 ≤ ⌊x_pixel_range_upper_bound w i⌋ := by
          apply Int.le_floor.mpr
          push_cast
          linarith
        omega
  have hfl0 : 0 ≤ ⌊x_pixel_range_lower_bound w i⌋ := Int.floor_nonneg.mpr hL0
  constructor
  · unfold sliceLo sliceHi
    rw [pyInt_of_nonneg hL0, pyInt_of_nonneg hU0]
    omega
  · unfold sliceHi
    rw [pyInt_of_nonneg hU0]
    omega

theorem dist_m_const (v : ℕ) (sc : ℚ) (i : ℕ) (h : sliceLo WIDTH i < sliceHi WIDTH i) :
    dist_m (fun _ _ => v) sc i = (v : ℚ) * sc := by
  unfold dist_m
  rw [Finset.sum_const, Nat.card_Ico, nsmul_eq_mul]
  have hne : ((sliceHi WIDTH i - sliceLo WIDTH i : ℕ) : ℚ) ≠ 0 := by
    have hne' : sliceHi WIDTH i - sliceLo WIDTH i ≠ 0 := by omega
    exact_mod_cast hne'
  rw [mul_comm (((sliceHi WIDTH i - sliceLo WIDTH i : ℕ) : ℚ)) ((v : ℚ)),
    mul_div_assoc, div_self hne, mul_one]

theorem sectorValue_sentinel (depth_mat : ℕ → ℕ → ℕ) (sc : ℚ) (i : ℕ)
    (h : dist_m depth_mat sc i < DEPTH_RANGE_MIN ∨ DEPTH_RANGE_MAX < dist_m depth_mat sc i) :
    sectorValue depth_mat sc DEPTH_RANGE_MIN DEPTH_RANGE_MAX i = 801 := by
  unfold sectorValue
  rw [if_pos h]
  norm_num [pyInt, DEPTH_RANGE_MAX]
  rfl

theorem sectorValue_inrange (depth_mat : ℕ → ℕ → ℕ) (sc : ℚ) (i : ℕ)
    (h1 : DEPTH_RANGE_MIN ≤ dist_m depth_mat sc i)
    (h2 : dist_m depth_mat sc i ≤ DEPTH_RANGE_MAX) :
    (sectorValue depth_mat sc DEPTH_RANGE_MIN DEPTH_RANGE_MAX i : ℤ) =
      ⌊dist_m depth_mat sc i * 100⌋ := by
  have hmin : (1/10 : ℚ) ≤ dist_m depth_mat sc i := h1
  have hd0 : (0 : ℚ) ≤ dist_m depth_mat sc i * 100 := by linarith
  unfold sectorValue
  rw [if_neg (by push_neg; exact ⟨h1, h2⟩)]
  rw [pyInt_of_nonneg hd0]
  exact Int.toNat_of_nonneg (Int.floor_nonneg.mpr hd0)

/-! ### Claims -/

/-- C3 (counterexample): a scheduler tick fired in the initial state, before
any frame has been processed, is not a no-op — it performs one send. -/
theorem C3_counterexample :
    schedulerTick initialState ≠ [] ∧ (schedulerTick initialState).length = 1 := by
  constructor <;> simp [schedulerTick, enable_msg_obstacle_distance]

/-- C3 (amended): a tick before any frame has been processed builds and sends
exactly one OBSTACLE_DISTANCE message, carrying timestamp `0` and the initial
sentinel array of 72 entries equal to `801`. -/
theorem C3_theorem :
    schedulerTick initialState =
      [MavlinkMsg.obstacleDistance
        { time_usec := 0, sensor_type := 0, distances := List.replicate 72 801,
          increment := 0, min_distance := 10, max_distance := 800,
          increment_f := 87 / 72, angle_offset := -(87 / 2), frame := 12 }] := by
  simp only [schedulerTick, enable_msg_obstacle_distance, if_true,
    send_obstacle_distance_message, initialState, initial_distances,
    MIN_DEPTH_CM_eq, MAX_DEPTH_CM_eq, increment_f, angle_offset, HFOV,
    DISTANCES_ARRAY_LEN]
  norm_num

/-- C6 (counterexample): for a tick on a post-frame state, only one message is
sent, and no DISTANCE_SENSOR (single-point) message is among the sends. -/
theorem C6_counterexample :
    (schedulerTick ⟨1712345678, List.replicate 72 200⟩).length = 1 ∧
    List.filter isDistanceSensorMsg (schedulerTick ⟨1712345678, List.replicate 72 200⟩) = [] := by
  constructor <;> simp [schedulerTick, enable_msg_obstacle_distance, isDistanceSensorMsg]

/-- C6 (amended): every scheduler tick transmits exactly the sector report
built by `send_obstacle_distance_message`; the single-point encoder
`send_distance_sensor_message` is never invoked, so no DISTANCE_SENSOR
message is ever among the sends. -/
theorem C6_theorem (st : ScriptState) :
    schedulerTick st = [MavlinkMsg.obstacleDistance (send_obstacle_distance_message st)] ∧
    List.filter isDistanceSensorMsg (schedulerTick st) = [] := by
  constructor <;> simp [schedulerTick, enable_msg_obstacle_distance, isDistanceSensorMsg]

/-- C10: before the first frame, every entry of the shared distance array is
`MAX_DEPTH_CM + 1 = 801` and the shared timestamp is `0`; a tick in this
state transmits a sector report whose 72 distances are all `801`, with
timestamp `0`. -/
theorem C10_theorem :
    initialState.distances = List.replicate 72 801 ∧
    MAX_DEPTH_CM + 1 = 801 ∧
    initialState.current_time_us = 0 ∧
    ∃ payload : ObstacleDistanceMsg,
      schedulerTick initialState = [MavlinkMsg.obstacleDistance payload] ∧
      payload.time_usec = 0 ∧ payload.distances = List.replicate 72 801 := by
  have hdist : initialState.distances = List.replicate 72 801 := by
    simp [initialState, initial_distances, DISTANCES_ARRAY_LEN, MAX_DEPTH_CM_eq]
  refine ⟨hdist, by rw [MAX_DEPTH_CM_eq], rfl,
    send_obstacle_distance_message initialState, ?_, rfl, hdist⟩
  simp [schedulerTick, enable_msg_obstacle_distance]

/-- C4 (counterexample): at image width `72` (which satisfies `width ≥ N`),
sector 0's clamped pixel span is `[int(0), int(0.5)) = [0, 0)` — empty, so
its mean would be taken over zero pixels. -/
theorem C4_counterexample :
    72 ≤ 72 ∧ sliceLo 72 0 = 0 ∧ sliceHi 72 0 = 0 := by
  refine ⟨le_refl 72, ?_, ?_⟩
  · norm_num [sliceLo, pyInt, x_pixel_range_lower_bound, DISTANCES_ARRAY_LEN]
  · norm_num [sliceHi, pyInt, x_pixel_range_upper_bound, DISTANCES_ARRAY_LEN]

/-- C4 (amended): for every width at least `2·N = 144`, every sector's clamped
pixel-column span — in particular sector 0's and sector 71's — is nonempty
and lies within `[0, width − 1]`. -/
theorem C4_theorem (w : ℕ) (hw : 144 ≤ w) (i : ℕ) (hi : i < 72) :
    sliceLo w i < sliceHi w i ∧ sliceHi w i ≤ w - 1 :=
  span_ok w hw i hi

/-- C4 witness: the amended claim holds concretely at the configured width
`640` for the edge sector `71`. -/
theorem C4_witness :
    144 ≤ 640 ∧ 71 < 72 ∧ (sliceLo 640 71 < sliceHi 640 71 ∧ sliceHi 640 71 ≤ 640 - 1) :=
  ⟨by norm_num, by norm_num, C4_theorem 640 (by norm_num) 71 (by norm_num)⟩

/-- C5 (counterexample): with central sectors `[200, 200, 201, 201, 201]`
(mean `200.6`), the single-point report carries `current_distance = 200`
(truncation), while rounding to the nearest centimeter would give `201`. -/
theorem C5_counterexample :
    exDistances.length = 72 ∧
    window33 exDistances = [200, 200, 201, 201, 201] ∧
    (send_distance_sensor_message ⟨0, exDistances⟩).current_distance = 200 ∧
    round (((window33 exDistances).sum : ℚ) / ((window33 exDistances).length : ℚ)) = (201 : ℤ) := by
  have h : window33 exDistances = [200, 200, 201, 201, 201] := by decide
  refine ⟨by decide, h, ?_, ?_⟩
  · simp only [send_distance_sensor_message, curr_dist, h]
    norm_num [pyInt]
    rfl
  · rw [h]
    norm_num [round_eq]

/-- C5 (amended): `current_distance` is the mean of sector values 33 through
37 inclusive truncated toward zero (integer floor), not rounded to nearest;
for the uniform scenario-A array the value is `200`. -/
theorem C5_theorem (t : ℕ) (ds : List ℕ) (a b c d e : ℕ)
    (h : window33 ds = [a, b, c, d, e]) :
    ((send_distance_sensor_message ⟨t, ds⟩).current_distance : ℤ) =
      ⌊((a : ℚ) + b + c + d + e) / 5⌋ := by
  have hsum : (((window33 ds).sum : ℕ) : ℚ) = (a : ℚ) + b + c + d + e := by
    rw [h]
    push_cast [List.sum_cons, List.sum_nil]
    ring
  have hlen : (((window33 ds).length : ℕ) : ℚ) = 5 := by rw [h]; norm_num
  have hnn : (0 : ℚ) ≤ ((a : ℚ) + b + c + d + e) / 5 := by positivity
  simp only [send_distance_sensor_message, curr_dist]
  rw [hsum, hlen, pyInt_of_nonneg hnn]
  exact Int.toNat_of_nonneg (Int.floor_nonneg.mpr hnn)

/-- C5 witness: on the uniform 200 cm array (scenario A) the single-point
report carries `⌊1000/5⌋ = 200`. -/
theorem C5_witness :
    window33 (List.replicate 72 200) = [200, 200, 200, 200, 200] ∧
    ((send_distance_sensor_message ⟨0, List.replicate 72 200⟩).current_distance : ℤ) =
      ⌊(((200 : ℕ) : ℚ) + (200 : ℕ) + (200 : ℕ) + (200 : ℕ) + (200 : ℕ)) / 5⌋ :=
  ⟨by decide, C5_theorem 0 (List.replicate 72 200) 200 200 200 200 200 (by decide)⟩

/-- C7: with the configured geometry and bounds, reducing an image whose raw
sample value is `0` everywhere yields a distance array all of whose 72
entries are the sentinel `801`. -/
theorem C7_theorem (ds : List ℕ) (h : ds.length = 72) :
    calculate_distances_from_depth (fun _ _ => 0) ds DEPTH_RANGE_MIN DEPTH_RANGE_MAX (1/1000) =
      List.replicate 72 801 := by
  rw [calc_eq_map _ _ _ _ _ h]
  have hz : ∀ i : ℕ, sectorValue (fun _ _ => 0) (1/1000) DEPTH_RANGE_MIN DEPTH_RANGE_MAX i = 801 := by
    intro i
    apply sectorValue_sentinel
    left
    have hd : dist_m (fun _ _ => 0) (1/1000) i = 0 := by
      unfold dist_m
      simp
    rw [hd]
    norm_num [DEPTH_RANGE_MIN]
  rw [List.eq_replicate_iff]
  constructor
  · simp
  · intro x hx
    simp only [List.mem_map, List.mem_range] at hx
    obtain ⟨i, _, hxi⟩ := hx
    rw [← hxi]
    exact hz i

/-- C7 witness: concretely, starting from the initial array. -/
theorem C7_witness :
    initial_distances.length = 72 ∧
    calculate_distances_from_depth (fun _ _ => 0) initial_distances
        DEPTH_RANGE_MIN DEPTH_RANGE_MAX (1/1000) = List.replicate 72 801 :=
  ⟨by simp [initial_distances, DISTANCES_ARRAY_LEN],
    C7_theorem initial_distances (by simp [initial_distances, DISTANCES_ARRAY_LEN])⟩

/-- C8: every entry of the distance array lies in
`[MIN_DEPTH_CM, MAX_DEPTH_CM + 1] = [10, 801]` — both for the initial array
and after any reduction call under the configured bounds. -/
theorem C8_theorem :
    (∀ x ∈ initial_distances, MIN_DEPTH_CM ≤ x ∧ x ≤ MAX_DEPTH_CM + 1) ∧
    (∀ (depth_mat : ℕ → ℕ → ℕ) (sc : ℚ) (ds : List ℕ), ds.length = 72 →
      ∀ x ∈ calculate_distances_from_depth depth_mat ds DEPTH_RANGE_MIN DEPTH_RANGE_MAX sc,
        MIN_DEPTH_CM ≤ x ∧ x ≤ MAX_DEPTH_CM + 1) := by
  constructor
  · intro x hx
    rw [initial_distances] at hx
    have hx' := List.eq_of_mem_replicate hx
    rw [hx', MIN_DEPTH_CM_eq, MAX_DEPTH_CM_eq]
    omega
  · intro depth_mat sc ds h x hx
    rw [calc_eq_map _ _ _ _ _ h] at hx
    simp only [List.mem_map, List.mem_range] at hx
    obtain ⟨i, _, rfl⟩ := hx
    by_cases hcond : dist_m depth_mat sc i < DEPTH_RANGE_MIN ∨ DEPTH_RANGE_MAX < dist_m depth_mat sc i
    · rw [sectorValue_sentinel depth_mat sc i hcond, MIN_DEPTH_CM_eq, MAX_DEPTH_CM_eq]
      omega
    · push_neg at hcond
      obtain ⟨h1, h2⟩ := hcond
      have hval := sectorValue_inrange depth_mat sc i h1 h2
      have h1' : (1/10 : ℚ) ≤ dist_m depth_mat sc i := h1
      have h2' : dist_m depth_mat sc i ≤ 8 := h2
      have hlo : (10 : ℤ) ≤ ⌊dist_m depth_mat sc i * 100⌋ := by
        apply Int.le_floor.mpr
        push_cast
        linarith
      have hhi : ⌊dist_m depth_mat sc i * 100⌋ ≤ 800 := by
        have hle : dist_m depth_mat sc i * 100 ≤ ((800 : ℤ) : ℚ) := by push_cast; linarith
        have := Int.floor_mono hle
        rwa [Int.floor_intCast] at this
      rw [MIN_DEPTH_CM_eq, MAX_DEPTH_CM_eq]
      omega

/-- C8 witness: the sentinel entry `801` of the initial array satisfies the
invariant bounds. -/
theorem C8_witness : MIN_DEPTH_CM ≤ 801 ∧ 801 ≤ MAX_DEPTH_CM + 1 :=
  C8_theorem.1 801
    (by simp [initial_distances, DISTANCES_ARRAY_LEN, MAX_DEPTH_CM_eq])

/-- C9: a reduction call never changes the array's length, and on the
72-entry array it writes exactly the 72 sector values, index `i` receiving
sector `i`'s value — so the produced array always has length 72. -/
theorem C9_theorem (depth_mat : ℕ → ℕ → ℕ) (mn mx sc : ℚ) (ds : List ℕ) :
    (calculate_distances_from_depth depth_mat ds mn mx sc).length = ds.length ∧
    (ds.length = 72 →
      calculate_distances_from_depth depth_mat ds mn mx sc =
        (List.range 72).map (sectorValue depth_mat sc mn mx) ∧
      (calculate_distances_from_depth depth_mat ds mn mx sc).length = 72) :=
  ⟨calc_length depth_mat ds mn mx sc, fun h =>
    ⟨calc_eq_map depth_mat ds mn mx sc h, by rw [calc_length]; exact h⟩⟩

/-- C9 witness: length preservation and length-72 output on the initial
array. -/
theorem C9_witness :
    (calculate_distances_from_depth (fun _ _ => 0) initial_distances
        DEPTH_RANGE_MIN DEPTH_RANGE_MAX (1/1000)).length = initial_distances.length ∧
    (calculate_distances_from_depth (fun _ _ => 0) initial_distances
        DEPTH_RANGE_MIN DEPTH_RANGE_MAX (1/1000)).length = 72 :=
  ⟨(C9_theorem (fun _ _ => 0) DEPTH_RANGE_MIN DEPTH_RANGE_MAX (1/1000) initial_distances).1,
    ((C9_theorem (fun _ _ => 0) DEPTH_RANGE_MIN DEPTH_RANGE_MAX (1/1000) initial_distances).2
      (by simp [initial_distances, DISTANCES_ARRAY_LEN])).2⟩

/-- C1 (counterexample): the uniform image with raw value `1999` at scale
`0.001` has in-range converted distance `1.999 m`, yet sector 0 is stored as
`199` — the truncation of `199.9` — where rounding would give `200`. -/
theorem C1_counterexample :
    DEPTH_RANGE_MIN ≤ dist_m (fun _ _ => 1999) (1/1000) 0 ∧
    dist_m (fun _ _ => 1999) (1/1000) 0 ≤ DEPTH_RANGE_MAX ∧
    sectorValue (fun _ _ => 1999) (1/1000) DEPTH_RANGE_MIN DEPTH_RANGE_MAX 0 = 199 ∧
    round (dist_m (fun _ _ => 1999) (1/1000) 0 * 100) = (200 : ℤ) := by
  have hspan : sliceLo WIDTH 0 < sliceHi WIDTH 0 :=
    (span_ok WIDTH (by norm_num [WIDTH]) 0 (by norm_num)).1
  have hd : dist_m (fun _ _ => 1999) (1/1000) 0 = ((1999 : ℕ) : ℚ) * (1/1000) :=
    dist_m_const 1999 (1/1000) 0 hspan
  have hmin : DEPTH_RANGE_MIN ≤ dist_m (fun _ _ => 1999) (1/1000) 0 := by
    rw [hd]
    norm_num [DEPTH_RANGE_MIN]
  have hmax : dist_m (fun _ _ => 1999) (1/1000) 0 ≤ DEPTH_RANGE_MAX := by
    rw [hd]
    norm_num [DEPTH_RANGE_MAX]
  refine ⟨hmin, hmax, ?_, ?_⟩
  · have hval := sectorValue_inrange (fun _ _ => 1999) (1/1000) 0 hmin hmax
    rw [hd] at hval
    have h199 : ⌊((1999 : ℕ) : ℚ) * (1/1000) * 100⌋ = 199 := by
      push_cast
      norm_num
    rw [h199] at hval
    exact_mod_cast hval
  · rw [hd]
    push_cast
    norm_num [round_eq]

/-- C1 (amended): for the configured bounds, a sector is set to the sentinel
`MAX_DEPTH_CM + 1` exactly when its converted mean distance `d` satisfies
`d ≤ 0`, `d < min_range_m`, or `d > max_range_m` (the first disjunct being
subsumed by the second since `min_range_m > 0`); otherwise the sector is set
to the truncation `int(d·100)` — the floor, not the nearest integer — and in
particular, for a uniform image whose samples convert to an in-range depth
`d`, every sector equals `⌊d·100⌋`. -/
theorem C1_theorem :
    (∀ (depth_mat : ℕ → ℕ → ℕ) (sc : ℚ) (i : ℕ), i < 72 →
      ((sectorValue depth_mat sc DEPTH_RANGE_MIN DEPTH_RANGE_MAX i = MAX_DEPTH_CM + 1 ↔
          dist_m depth_mat sc i ≤ 0 ∨ dist_m depth_mat sc i < DEPTH_RANGE_MIN ∨
            DEPTH_RANGE_MAX < dist_m depth_mat sc i) ∧
        (DEPTH_RANGE_MIN ≤ dist_m depth_mat sc i → dist_m depth_mat sc i ≤ DEPTH_RANGE_MAX →
          (sectorValue depth_mat sc DEPTH_RANGE_MIN DEPTH_RANGE_MAX i : ℤ) =
            ⌊dist_m depth_mat sc i * 100⌋))) ∧
    (∀ (v i : ℕ), i < 72 →
      DEPTH_RANGE_MIN ≤ (v : ℚ) * (1/1000) → (v : ℚ) * (1/1000) ≤ DEPTH_RANGE_MAX →
      (sectorValue (fun _ _ => v) (1/1000) DEPTH_RANGE_MIN DEPTH_RANGE_MAX i : ℤ) =
        ⌊(v : ℚ) * (1/1000) * 100⌋) := by
  constructor
  · intro depth_mat sc i _hi
    constructor
    · constructor
      · intro hval
        by_contra hcond
        push_neg at hcond
        obtain ⟨_, hmin, hmax⟩ := hcond
        have hv := sectorValue_inrange depth_mat sc i hmin hmax
        rw [hval, MAX_DEPTH_CM_eq] at hv
        have h2' : dist_m depth_mat sc i ≤ 8 := hmax
        have hhi : ⌊dist_m depth_mat sc i * 100⌋ ≤ 800 := by
          have hle : dist_m depth_mat sc i * 100 ≤ ((800 : ℤ) : ℚ) := by push_cast; linarith
          have := Int.floor_mono hle
          rwa [Int.floor_intCast] at this
        omega
      · intro hcond
        have hc : dist_m depth_mat sc i < DEPTH_RANGE_MIN ∨
            DEPTH_RANGE_MAX < dist_m depth_mat sc i := by
          rcases hcond with h | h | h
          · left
            have : (0 : ℚ) < DEPTH_RANGE_MIN := by norm_num [DEPTH_RANGE_MIN]
            linarith
          · left; exact h
          · right; exact h
        rw [sectorValue_sentinel depth_mat sc i hc, MAX_DEPTH_CM_eq]
    · exact fun h1 h2 => sectorValue_inrange depth_mat sc i h1 h2
  · intro v i hi h1 h2
    have hspan : sliceLo WIDTH i < sliceHi WIDTH i :=
      (span_ok WIDTH (by norm_num [WIDTH]) i hi).1
    have hd : dist_m (fun _ _ => v) (1/1000) i = (v : ℚ) * (1/1000) :=
      dist_m_const v (1/1000) i hspan
    have hval := sectorValue_inrange (fun _ _ => v) (1/1000) i
      (by rw [hd]; exact h1) (by rw [hd]; exact h2)
    rw [hd] at hval
    exact hval

/-- C1 witness: the uniform scenario-A image (raw `2000`, depth `2.0 m`)
instantiates the amended uniform-depth property at sector 0 with value
`⌊200⌋ = 200`. -/
theorem C1_witness :
    (0 : ℕ) < 72 ∧
    DEPTH_RANGE_MIN ≤ ((2000 : ℕ) : ℚ) * (1/1000) ∧
    ((2000 : ℕ) : ℚ) * (1/1000) ≤ DEPTH_RANGE_MAX ∧
    (sectorValue (fun _ _ => 2000) (1/1000) DEPTH_RANGE_MIN DEPTH_RANGE_MAX 0 : ℤ) =
      ⌊((2000 : ℕ) : ℚ) * (1/1000) * 100⌋ :=
  ⟨by norm_num, by norm_num [DEPTH_RANGE_MIN], by norm_num [DEPTH_RANGE_MAX],
    C1_theorem.2 2000 0 (by norm_num) (by norm_num [DEPTH_RANGE_MIN])
      (by norm_num [DEPTH_RANGE_MAX])⟩

/-- C6 witness: the amended claim instantiated at the initial state. -/
theorem C6_witness :
    schedulerTick initialState =
      [MavlinkMsg.obstacleDistance (send_obstacle_distance_message initialState)] ∧
    List.filter isDistanceSensorMsg (schedulerTick initialState) = [] :=
  C6_theorem initialState
